import Mathlib

/-!
Shallow embedding of `src/core/transaction.rs` from the Gustorn/blockchain
repository: the transaction data model (`Transfer`, `Reward`, `Transaction`),
the canonical digest (`Transaction::transfer_hash`), signing
(`Transaction::transfer`), reward construction (`Transaction::reward`) and
validation (`Transaction::is_valid`).

Modelling conventions:
* Rust byte vectors (`Vec<u8>`) are `List Nat` with each element a byte value;
  `u64` quantities are `Nat` (they are only constructed, compared and
  serialised, never subjected to overflowing arithmetic in this file);
  `Uuid` is the 128-bit value it wraps, a `Nat` below `2 ^ 128`.
* A Rust panic (`unwrap` / `expect`) is modelled as `Option.none`: a function
  that can panic returns an `Option`, and `none` means the process aborts.
* The `hex`, `serde_json` and `uuid` crates are deterministic byte-level
  libraries and are embedded concretely (`Vec.from_hex`, `to_hex`, the JSON
  rendering, `Uuid.to_string`, `Uuid.parse_str`); `ring`'s SHA-512 is
  embedded concretely as `sha512`.
* `ring`'s Ed25519 signing and verification are cryptographic primitives
  external to the repository; they are parameters (`from_pkcs8`, the
  verification core) wrapped by `ed25519_verify`, which carries the key and
  signature lengths the specification fixes (32-byte public keys, 64-byte
  signatures).
-/

namespace Blockchain

/-! ### Hex encoding and decoding (the `hex` crate) -/

/-- Value of one hex digit, accepting both cases, as `hex::FromHex` does. -/
def hexVal (c : Char) : Option Nat :=
  let n := c.toNat
  if 48 ≤ n ∧ n ≤ 57 then some (n - 48)
  else if 97 ≤ n ∧ n ≤ 102 then some (n - 87)
  else if 65 ≤ n ∧ n ≤ 70 then some (n - 55)
  else none

/-- Decode a character list as hex bytes: the length must be even and every
character a hex digit, exactly as `hex::FromHex for Vec<u8>` requires. -/
def hexBytes : List Char → Option (List Nat)
  | [] => some []
  | [_] => none
  | c1 :: c2 :: rest => do
    let hi ← hexVal c1
    let lo ← hexVal c2
    let tail ← hexBytes rest
    pure ((16 * hi + lo) :: tail)

/-- `Vec::from_hex` from the `hex` crate, on strings. -/
def Vec.from_hex (s : String) : Option (List Nat) :=
  hexBytes s.data

/-- Lowercase hex digit for a nibble, as the `hex` crate emits. -/
def hexDigitChar (n : Nat) : Char :=
  if n < 10 then Char.ofNat (48 + n) else Char.ofNat (87 + n)

/-- Two lowercase hex digits of one byte. -/
def byteToHex (b : Nat) : List Char :=
  [hexDigitChar (b / 16 % 16), hexDigitChar (b % 16)]

/-- `ToHex::to_hex` from the `hex` crate: lowercase hex of a byte sequence. -/
def to_hex (bs : List Nat) : String :=
  String.mk (bs.map byteToHex).flatten

/-! ### UTF-8 bytes of a string (Rust `String::as_ref::<[u8]>`) -/

/-- UTF-8 byte sequence of one scalar value. -/
def utf8Char (c : Char) : List Nat :=
  let n := c.toNat
  if n < 0x80 then [n]
  else if n < 0x800 then [0xC0 + n / 64, 0x80 + n % 64]
  else if n < 0x10000 then [0xE0 + n / 4096, 0x80 + n / 64 % 64, 0x80 + n % 64]
  else [0xF0 + n / 262144, 0x80 + n / 4096 % 64, 0x80 + n / 64 % 64, 0x80 + n % 64]

/-- UTF-8 bytes of a string, the `&[u8]` view Rust hashes. -/
def utf8Bytes (s : String) : List Nat :=
  (s.data.map utf8Char).flatten

/-! ### JSON rendering (`serde_json::to_string` on a flat struct) -/

/-- A scalar JSON value: all fields of `SignedTransfer` are scalars. -/
inductive JScalar where
  | str : String → JScalar
  | num : Nat → JScalar

/-- `serde_json` escaping of one character inside a JSON string literal. -/
def jsonEscapeChar (c : Char) : List Char :=
  if c = '"' then ['\\', '"']
  else if c = '\\' then ['\\', '\\']
  else if c.toNat = 8 then ['\\', 'b']
  else if c.toNat = 9 then ['\\', 't']
  else if c.toNat = 10 then ['\\', 'n']
  else if c.toNat = 12 then ['\\', 'f']
  else if c.toNat = 13 then ['\\', 'r']
  else if c.toNat < 32 then
    ['\\', 'u', '0', '0', hexDigitChar (c.toNat / 16), hexDigitChar (c.toNat % 16)]
  else [c]

/-- `serde_json` escaping of a whole string (without the enclosing quotes). -/
def jsonEscape (s : String) : String :=
  String.mk (s.data.map jsonEscapeChar).flatten

/-- Compact rendering of a scalar, as `serde_json::to_string` produces. -/
def jsonRenderScalar : JScalar → String
  | JScalar.str s => "\"" ++ jsonEscape s ++ "\""
  | JScalar.num n => Nat.repr n

/-- Compact rendering of one `"key":value` member. -/
def jsonRenderField (f : String × JScalar) : String :=
  "\"" ++ jsonEscape f.1 ++ "\":" ++ jsonRenderScalar f.2

/-- Comma-separated members of a JSON object. -/
def jsonRenderMembers : List (String × JScalar) → String
  | [] => ""
  | [f] => jsonRenderField f
  | f :: rest => jsonRenderField f ++ "," ++ jsonRenderMembers rest

/-- Compact rendering of a flat JSON object; `serde_json` writes a derived
struct's fields in declaration order, separated by commas. -/
def jsonRenderObj (fields : List (String × JScalar)) : String :=
  "\x7b" ++ jsonRenderMembers fields ++ "\x7d"

/-! ### UUIDs (the `uuid` crate) -/

/-- Fixed-width big-endian lowercase hex rendering of a number. -/
def natToHexFixed (len n : Nat) : List Char :=
  (List.range len).map (fun i => hexDigitChar (n / 16 ^ (len - 1 - i) % 16))

/-- The hyphenated lowercase form of a UUID, which is also how the `uuid`
crate serialises a `Uuid` through serde. -/
def Uuid.to_string (u : Nat) : String :=
  let d := natToHexFixed 32 (u % 2 ^ 128)
  String.mk (d.take 8) ++ "-" ++ String.mk ((d.drop 8).take 4) ++ "-" ++
    String.mk ((d.drop 12).take 4) ++ "-" ++ String.mk ((d.drop 16).take 4) ++ "-" ++
    String.mk (d.drop 20)

/-- Hex value of a fixed-length digit group. -/
def hexGroup (cs : List Char) : Option Nat :=
  cs.foldl (fun acc c => do pure (16 * (← acc) + (← hexVal c))) (some 0)

/-- Split a character list at every occurrence of the separator. -/
def splitOnChar (sep : Char) : List Char → List (List Char)
  | [] => [[]]
  | x :: rest =>
    match splitOnChar sep rest with
    | [] => if x = sep then [[], []] else [[x]]
    | g :: gs => if x = sep then [] :: g :: gs else (x :: g) :: gs

/-- `Uuid::parse_str`: accepts the hyphenated `8-4-4-4-12` form and the
simple 32-digit form, hex digits in either case; anything else fails. -/
def Uuid.parse_str (s : String) : Option Nat :=
  match splitOnChar '-' s.data with
  | [a] =>
    if a.length = 32 then hexGroup a else none
  | [a, b, c, d, e] =>
    if a.length = 8 ∧ b.length = 4 ∧ c.length = 4 ∧ d.length = 4 ∧ e.length = 12 then do
      let va ← hexGroup a
      let vb ← hexGroup b
      let vc ← hexGroup c
      let vd ← hexGroup d
      let ve ← hexGroup e
      pure ((((va * 2 ^ 16 + vb) * 2 ^ 16 + vc) * 2 ^ 16 + vd) * 2 ^ 48 + ve)
    else none
  | _ => none

/-! ### SHA-512 (`ring::digest::SHA512`), FIPS 180-4 -/

namespace SHA512

/-- Word size: all state words live below `2 ^ 64`. -/
def w : Nat := 2 ^ 64

/-- Right rotation of a 64-bit word. -/
def rotr (x n : Nat) : Nat :=
  (x >>> n) ||| ((x <<< (64 - n)) % w)

/-- Round constants: fractional parts of the cube roots of the first
80 primes. -/
def K : List Nat := [
  4794697086780616226, 8158064640168781261, 13096744586834688815,
  16840607885511220156, 4131703408338449720, 6480981068601479193,
  10538285296894168987, 12329834152419229976, 15566598209576043074,
  1334009975649890238, 2608012711638119052, 6128411473006802146,
  8268148722764581231, 9286055187155687089, 11230858885718282805,
  13951009754708518548, 16472876342353939154, 17275323862435702243,
  1135362057144423861, 2597628984639134821, 3308224258029322869,
  5365058923640841347, 6679025012923562964, 8573033837759648693,
  10970295158949994411, 12119686244451234320, 12683024718118986047,
  13788192230050041572, 14330467153632333762, 15395433587784984357,
  489312712824947311, 1452737877330783856, 2861767655752347644,
  3322285676063803686, 5560940570517711597, 5996557281743188959,
  7280758554555802590, 8532644243296465576, 9350256976987008742,
  10552545826968843579, 11727347734174303076, 12113106623233404929,
  14000437183269869457, 14369950271660146224, 15101387698204529176,
  15463397548674623760, 17586052441742319658, 1182934255886127544,
  1847814050463011016, 2177327727835720531, 2830643537854262169,
  3796741975233480872, 4115178125766777443, 5681478168544905931,
  6601373596472566643, 7507060721942968483, 8399075790359081724,
  8693463985226723168, 9568029438360202098, 10144078919501101548,
  10430055236837252648, 11840083180663258601, 13761210420658862357,
  14299343276471374635, 14566680578165727644, 15097957966210449927,
  16922976911328602910, 17689382322260857208, 500013540394364858,
  748580250866718886, 1242879168328830382, 1977374033974150939,
  2944078676154940804, 3659926193048069267, 4368137639120453308,
  4836135668995329356, 5532061633213252278, 6448918945643986474,
  6902733635092675308, 7801388544844847127]

/-- The eight 64-bit words of the hash state. -/
structure Hash8 where
  a : Nat
  b : Nat
  c : Nat
  d : Nat
  e : Nat
  f : Nat
  g : Nat
  h : Nat

/-- Initial hash value: fractional parts of the square roots of the first
8 primes. -/
def H0 : Hash8 :=
  ⟨7640891576956012808,
   13503953896175478587,
   4354685564936845355,
   11912009170470909681,
   5840696475078001361,
   11170449401992604703,
   2270897969802886507,
   6620516959819538809⟩

/-- Big Sigma 0. -/
def bigS0 (x : Nat) : Nat := rotr x 28 ^^^ rotr x 34 ^^^ rotr x 39

/-- Big Sigma 1. -/
def bigS1 (x : Nat) : Nat := rotr x 14 ^^^ rotr x 18 ^^^ rotr x 41

/-- Small sigma 0. -/
def smallS0 (x : Nat) : Nat := rotr x 1 ^^^ rotr x 8 ^^^ (x >>> 7)

/-- Small sigma 1. -/
def smallS1 (x : Nat) : Nat := rotr x 19 ^^^ rotr x 61 ^^^ (x >>> 6)

/-- Choose function; complement is xor with the all-ones word. -/
def ch (x y z : Nat) : Nat := (x &&& y) ^^^ ((x ^^^ (w - 1)) &&& z)

/-- Majority function. -/
def maj (x y z : Nat) : Nat := (x &&& y) ^^^ (x &&& z) ^^^ (y &&& z)

/-- Pad the message: `0x80`, zeros to 112 mod 128, then the bit length as a
16-byte big-endian number. -/
def pad (msg : List Nat) : List Nat :=
  let L := msg.length
  let zeros := (239 - L % 128) % 128
  msg ++ [0x80] ++ List.replicate zeros 0 ++
    (List.range 16).map (fun i => 8 * L / 2 ^ (8 * (15 - i)) % 256)

/-- Split a byte list into 128-byte chunks; the fuel is a structural bound
on the number of steps, and `l.length` steps always suffice because every
step consumes at least one byte. -/
def toChunksFuel : Nat → List Nat → List (List Nat)
  | 0, _ => []
  | _, [] => []
  | fuel + 1, l => l.take 128 :: toChunksFuel fuel (l.drop 128)

/-- Split a byte list into 128-byte chunks. -/
def toChunks (l : List Nat) : List (List Nat) :=
  toChunksFuel l.length l

/-- The sixteen big-endian 64-bit words of one chunk. -/
def wordAt (chunk : List Nat) (j : Nat) : Nat :=
  (List.range 8).foldl (fun acc i => acc * 256 + chunk.getD (8 * j + i) 0) 0

/-- The 80-word message schedule of one chunk. -/
def schedule (chunk : List Nat) : List Nat :=
  (List.range 80).foldl
    (fun ws j =>
      if j < 16 then ws ++ [wordAt chunk j]
      else ws ++ [(ws.getD (j - 16) 0 + smallS0 (ws.getD (j - 15) 0) +
        ws.getD (j - 7) 0 + smallS1 (ws.getD (j - 2) 0)) % w])
    []

/-- One compression round. -/
def round (kt wt : Nat) (s : Hash8) : Hash8 :=
  let T1 := (s.h + bigS1 s.e + ch s.e s.f s.g + kt + wt) % w
  let T2 := (bigS0 s.a + maj s.a s.b s.c) % w
  ⟨(T1 + T2) % w, s.a, s.b, s.c, (s.d + T1) % w, s.e, s.f, s.g⟩

/-- Compress one 128-byte chunk into the running state. -/
def compress (s0 : Hash8) (chunk : List Nat) : Hash8 :=
  let ws := schedule chunk
  let sf := (List.range 80).foldl (fun s t => round (K.getD t 0) (ws.getD t 0) s) s0
  ⟨(s0.a + sf.a) % w, (s0.b + sf.b) % w, (s0.c + sf.c) % w, (s0.d + sf.d) % w,
   (s0.e + sf.e) % w, (s0.f + sf.f) % w, (s0.g + sf.g) % w, (s0.h + sf.h) % w⟩

/-- The eight big-endian bytes of a 64-bit word. -/
def wordBytes (x : Nat) : List Nat :=
  (List.range 8).map (fun i => x / 2 ^ (8 * (7 - i)) % 256)

end SHA512

/-- SHA-512 digest of a byte sequence: 64 bytes. -/
def sha512 (msg : List Nat) : List Nat :=
  let final := (SHA512.toChunks (SHA512.pad msg)).foldl SHA512.compress SHA512.H0
  SHA512.wordBytes final.a ++ SHA512.wordBytes final.b ++ SHA512.wordBytes final.c ++
    SHA512.wordBytes final.d ++ SHA512.wordBytes final.e ++ SHA512.wordBytes final.f ++
    SHA512.wordBytes final.g ++ SHA512.wordBytes final.h

/-! ### The transaction model (`src/core/transaction.rs`) -/

/-- `pub const MINER_REWARD: u64 = 1;` -/
def MINER_REWARD : Nat := 1

/-- `struct Transfer`, fields in source declaration order. -/
structure Transfer where
  id : Nat
  amount : Nat
  sender : String
  recipient : String
  signature : String

/-- `struct Reward`, fields in source declaration order. -/
structure Reward where
  id : Nat
  recipient : String
  amount : Nat

/-- `enum Transaction`. -/
inductive Transaction where
  | Transfer : Transfer → Transaction
  | Reward : Reward → Transaction

/-- `struct SignedTransfer`: the canonical subset of a transfer's fields, in
source declaration order `id, sender, recipient, amount`. -/
structure SignedTransfer where
  id : Nat
  sender : String
  recipient : String
  amount : Nat

/-- `serde_json::to_string` on a derived `SignedTransfer`: the fields in
declaration order, `id` serialised as the hyphenated UUID string. -/
def SignedTransfer.toJson (st : SignedTransfer) : String :=
  jsonRenderObj [("id", JScalar.str (Uuid.to_string st.id)),
    ("sender", JScalar.str st.sender),
    ("recipient", JScalar.str st.recipient),
    ("amount", JScalar.num st.amount)]

/-- Modelled from the spec: the external wire-transfer record of the
`network` module, which is not among the analysed sources. Per §6 it carries
`(id, amount, sender, recipient, signature)` with `id` a string; `amount` is
numeric, as the field-by-field conversion in `transaction.rs` requires. -/
structure NetworkTransfer where
  id : String
  amount : Nat
  sender : String
  recipient : String
  signature : String

/-- `impl From<network::Transfer> for Transfer`. The source calls
`Uuid::parse_str(&transfer.id).expect("Incorrect transfer UUID")`; the
`expect` panic on a malformed id is modelled as `none`. -/
def Transfer.from_network (transfer : NetworkTransfer) : Option Transfer :=
  match Uuid.parse_str transfer.id with
  | none => none
  | some id =>
    some { id := id, amount := transfer.amount, sender := transfer.sender,
           recipient := transfer.recipient, signature := transfer.signature }

/-- `Transaction::transfer_hash`: project the transfer onto `SignedTransfer`
(the signature is not among its fields), serialise with `serde_json`, and
hash the UTF-8 bytes with SHA-512. -/
def Transaction.transfer_hash (transfer : Blockchain.Transfer) : List Nat :=
  let signed_transfer : SignedTransfer :=
    { id := transfer.id, sender := transfer.sender,
      recipient := transfer.recipient, amount := transfer.amount }
  sha512 (utf8Bytes signed_transfer.toJson)

/-- Modelled from the spec: `ring`'s Ed25519 verification
(`signature::verify(&signature::ED25519, ...)`), which is outside the
analysed sources. The mathematical check is the parameter `core`; the
wrapper fixes the documented shape of Ed25519 material (§3: public keys are
32 raw bytes, signatures 64 raw bytes) and rejects any other length. -/
def ed25519_verify (core : List Nat → List Nat → List Nat → Bool)
    (public_key msg sig : List Nat) : Bool :=
  public_key.length == 32 && sig.length == 64 && core public_key msg sig

/-- `Transaction::transfer`. `Uuid::new_v4()` is random, so the fresh id is
a parameter; `Ed25519KeyPair::from_pkcs8` is a parameter returning the
keypair's signing function, `none` when the key container is malformed — the
source then panics via `.expect("Cannot create private/public key pair")`,
modelled as `none`. The digest is taken while `signature` is still the empty
string, and the Ed25519 signature is stored hex-encoded. -/
def Transaction.transfer (from_pkcs8 : List Nat → Option (List Nat → List Nat))
    (id : Nat) (sender recipient : String) (amount : Nat)
    (private_key : List Nat) : Option Blockchain.Transaction :=
  let transfer0 : Blockchain.Transfer :=
    { id := id, sender := sender, recipient := recipient, amount := amount,
      signature := "" }
  match from_pkcs8 private_key with
  | none => none
  | some sign =>
    let signature := to_hex (sign (Transaction.transfer_hash transfer0))
    some (Transaction.Transfer { transfer0 with signature := signature })

/-- `Transaction::reward`: a fresh id (parameter, for `Uuid::new_v4()`), the
given recipient, and the fixed `MINER_REWARD` amount. -/
def Transaction.reward (id : Nat) (recipient : String) : Blockchain.Transaction :=
  Transaction.Reward { id := id, recipient := recipient, amount := MINER_REWARD }

/-- `Transaction::is_valid_transfer`. The source hex-decodes `sender` and
`signature` with `.unwrap()`, which panics on malformed hex — modelled as
`none`; otherwise it recomputes the canonical digest from the stored fields
and checks the Ed25519 signature. -/
def Transaction.is_valid_transfer (core : List Nat → List Nat → List Nat → Bool)
    (transfer : Blockchain.Transfer) : Option Bool :=
  match Vec.from_hex transfer.sender with
  | none => none
  | some public_key_bytes =>
    match Vec.from_hex transfer.signature with
    | none => none
    | some signature_bytes =>
      some (ed25519_verify core public_key_bytes
        (Transaction.transfer_hash transfer) signature_bytes)

/-- `Transaction::is_valid`: variant dispatch; a reward is valid exactly when
its amount is `MINER_REWARD`, with no cryptography involved. -/
def Transaction.is_valid (core : List Nat → List Nat → List Nat → Bool) :
    Transaction → Option Bool
  | Transaction.Transfer transfer => Transaction.is_valid_transfer core transfer
  | Transaction.Reward reward => some (reward.amount == MINER_REWARD)

/-! ### Basic lemmas about the embedded library functions -/

/-- Hex encoding of a nibble decodes to the same nibble. -/
theorem hexVal_hexDigitChar : ∀ n, n < 16 → hexVal (hexDigitChar n) = some n := by
  decide

/-- Decoding the hex rendering of a byte list recovers the bytes. -/
theorem hexBytes_flatten_byteToHex (bs : List Nat) (h : ∀ b ∈ bs, b < 256) :
    hexBytes (bs.map byteToHex).flatten = some bs := by
  induction bs with
  | nil => rfl
  | cons b rest ih =>
    have hb : b < 256 := h b (List.mem_cons_self b rest)
    have hrest : ∀ x ∈ rest, x < 256 := fun x hx => h x (List.mem_cons_of_mem b hx)
    have hdiv : b / 16 < 16 := by omega
    have hmod : b % 16 < 16 := Nat.mod_lt b (by norm_num)
    have h1 : b / 16 % 16 = b / 16 := Nat.mod_eq_of_lt hdiv
    simp only [List.map_cons, List.flatten_cons, byteToHex, List.cons_append,
      List.append_eq, List.nil_append, hexBytes, h1, hexVal_hexDigitChar _ hdiv,
      hexVal_hexDigitChar _ hmod, ih hrest, Option.bind_eq_bind,
      Option.some_bind, Option.pure_def, Option.some.injEq, List.cons.injEq,
      and_true]
    omega

/-- `Vec::from_hex` inverts `to_hex` on byte lists. -/
theorem from_hex_to_hex (bs : List Nat) (h : ∀ b ∈ bs, b < 256) :
    Vec.from_hex (to_hex bs) = some bs :=
  hexBytes_flatten_byteToHex bs h

/-- The canonical digest never looks at the stored signature. -/
theorem transfer_hash_signature_irrel (t : Transfer) (s : String) :
    Transaction.transfer_hash { t with signature := s } =
      Transaction.transfer_hash t := rfl

/-- A SHA-512 digest is 64 bytes long. -/
theorem sha512_length (msg : List Nat) : (sha512 msg).length = 64 := by
  simp [sha512, SHA512.wordBytes]

/-- When both hex decodes succeed, `is_valid_transfer` is the Ed25519 check
of the recomputed digest. -/
theorem is_valid_transfer_eq (core : List Nat → List Nat → List Nat → Bool)
    (t : Transfer) (pk sig : List Nat)
    (h1 : Vec.from_hex t.sender = some pk)
    (h2 : Vec.from_hex t.signature = some sig) :
    Transaction.is_valid_transfer core t =
      some (ed25519_verify core pk (Transaction.transfer_hash t) sig) := by
  simp only [Transaction.is_valid_transfer, h1, h2]

/-- Flattening an elementwise-singleton map is the identity. -/
theorem flatten_map_singleton {α : Type} (f : α → List α) :
    ∀ l : List α, (∀ c ∈ l, f c = [c]) → (l.map f).flatten = l := by
  intro l h
  induction l with
  | nil => rfl
  | cons c rest ih =>
    simp only [List.map_cons, List.flatten_cons, h c (List.mem_cons_self c rest),
      List.singleton_append, List.cons.injEq, true_and]
    exact ih fun x hx => h x (List.mem_cons_of_mem c hx)

/-- JSON escaping is the identity on strings with no character to escape. -/
theorem jsonEscape_of_forall (s : String)
    (h : ∀ c ∈ s.data, jsonEscapeChar c = [c]) : jsonEscape s = s :=
  congrArg String.mk (flatten_map_singleton jsonEscapeChar s.data h)

/-- Hex digits survive JSON escaping unchanged. -/
theorem jsonEscapeChar_hexDigitChar :
    ∀ n, n < 16 → jsonEscapeChar (hexDigitChar n) = [hexDigitChar n] := by
  decide

/-- Every character of a fixed-width hex rendering is a hex digit. -/
theorem mem_natToHexFixed {c : Char} {len n : Nat}
    (h : c ∈ natToHexFixed len n) : ∃ m, m < 16 ∧ c = hexDigitChar m := by
  simp only [natToHexFixed, List.mem_map, List.mem_range] at h
  obtain ⟨i, _, rfl⟩ := h
  exact ⟨_, Nat.mod_lt _ (by norm_num), rfl⟩

/-- The `data` of an appended string, in rewrite-friendly form. -/
theorem data_append (a b : String) : (a ++ b).data = a.data ++ b.data := rfl

/-- The hyphenated UUID string contains nothing JSON escaping touches, so
`serde_json` emits it verbatim between quotes. -/
theorem jsonEscape_uuid (u : Nat) :
    jsonEscape (Uuid.to_string u) = Uuid.to_string u := by
  apply jsonEscape_of_forall
  intro c hc
  have hhex : ∀ m, m < 16 → jsonEscapeChar (hexDigitChar m) = [hexDigitChar m] :=
    jsonEscapeChar_hexDigitChar
  have hdash : jsonEscapeChar '-' = ['-'] := by decide
  have hd : ∀ x ∈ natToHexFixed 32 (u % 2 ^ 128), jsonEscapeChar x = [x] := by
    intro x hx
    obtain ⟨m, hm, rfl⟩ := mem_natToHexFixed hx
    exact hhex m hm
  simp only [Uuid.to_string, data_append,
    show ∀ l : List Char, (String.mk l).data = l from fun _ => rfl,
    show ("-" : String).data = ['-'] from rfl,
    List.mem_append, List.mem_singleton] at hc
  rcases hc with ((((((((h | h) | h) | h) | h) | h) | h) | h) | h)
  · exact hd c (List.take_subset _ _ h)
  · subst h; exact hdash
  · exact hd c (List.drop_subset _ _ (List.take_subset _ _ h))
  · subst h; exact hdash
  · exact hd c (List.drop_subset _ _ (List.take_subset _ _ h))
  · subst h; exact hdash
  · exact hd c (List.drop_subset _ _ (List.take_subset _ _ h))
  · subst h; exact hdash
  · exact hd c (List.drop_subset _ _ h)

/-! ### A concrete toy signature scheme

Used to instantiate the abstract Ed25519 parameters on concrete inputs: it
satisfies the interface the code consumes (fallible PKCS8 parsing, a signing
function producing 64-byte signatures, a verification core accepting exactly
the signatures this key produces). -/

/-- The toy public key: 32 zero bytes. -/
def toyPk : List Nat := List.replicate 32 0

/-- The toy signing function: 64 copies of the message byte sum mod 256. -/
def toySign (m : List Nat) : List Nat := List.replicate 64 (m.sum % 256)

/-- The toy PKCS8 parser: only `[7]` is a well-formed key container. -/
def toyFromPkcs8 (key : List Nat) : Option (List Nat → List Nat) :=
  if key = [7] then some toySign else none

/-- The toy verification core: accepts under `toyPk` exactly the signature
`toySign` gives the message. -/
def toyCore (pk m sig : List Nat) : Bool := pk == toyPk && sig == toySign m

/-- The hex encoding of `toyPk`: sixty-four `'0'` characters. -/
def sender0 : String := String.mk (List.replicate 64 '0')

/-- Sixty-four sender characters with one bit flipped: the first `'0'`
(0x30) became `'p'` (0x70), a single flip of bit 6, and `'p'` is not a hex
digit. -/
def senderFlip : String := String.mk ('p' :: List.replicate 63 '0')

/-- Replace the sender field of a transfer transaction, leaving the stored
signature and everything else unchanged. -/
def tamperSender (s : String) : Transaction → Transaction
  | Transaction.Transfer t => Transaction.Transfer { t with sender := s }
  | tx => tx

/-! ### The claims -/

/-- C1. The claim says `is_valid` never fails on malformed input and returns
`false` when `sender` or `signature` is not valid hex. The code instead
panics in `Vec::from_hex(...).unwrap()`: on a transfer whose sender is
`"zz"`, and on one whose signature is `"0g"`, the embedded `is_valid` is
`none` (the process aborts), for every verification core. -/
theorem claim_C1_is_valid_panics_on_malformed_hex :
    ∀ core,
      Transaction.is_valid core
        (Transaction.Transfer ⟨0, 5, "zz", "bob", "00"⟩) = none ∧
      Transaction.is_valid core
        (Transaction.Transfer ⟨0, 5, "aa", "bob", "0g"⟩) = none :=
  fun _ => ⟨rfl, rfl⟩

/-- C2. Signing with `Transaction::transfer` and then validating yields
`true`, for every keypair that the PKCS8 parser accepts, whose hex-encoded
public key is the sender string, whose public key is 32 bytes, and whose
signatures are 64 bytes accepted by the verification core. -/
theorem claim_C2_sign_then_validate_yields_true
    (from_pkcs8 : List Nat → Option (List Nat → List Nat))
    (core : List Nat → List Nat → List Nat → Bool)
    (private_key pk : List Nat) (signFn : List Nat → List Nat)
    (sender recipient : String) (id amount : Nat)
    (hkey : from_pkcs8 private_key = some signFn)
    (hsender : Vec.from_hex sender = some pk)
    (hpklen : pk.length = 32)
    (hsiglen : ∀ m, (signFn m).length = 64)
    (hsigbytes : ∀ m, ∀ b ∈ signFn m, b < 256)
    (hvalid : ∀ m, core pk m (signFn m) = true) :
    (Transaction.transfer from_pkcs8 id sender recipient amount
      private_key).map (Transaction.is_valid core) = some (some true) := by
  have htx : Transaction.transfer from_pkcs8 id sender recipient amount
      private_key = some (Transaction.Transfer
        ⟨id, amount, sender, recipient,
          to_hex (signFn (Transaction.transfer_hash
            ⟨id, amount, sender, recipient, ""⟩))⟩) := by
    simp only [Transaction.transfer, hkey]
  rw [htx, Option.map_some']
  show some (Transaction.is_valid_transfer core _) = some (some true)
  rw [is_valid_transfer_eq core _ pk _ hsender
    (from_hex_to_hex _ (hsigbytes _))]
  show some (some (ed25519_verify core pk
    (Transaction.transfer_hash ⟨id, amount, sender, recipient, ""⟩)
    (signFn (Transaction.transfer_hash
      ⟨id, amount, sender, recipient, ""⟩)))) = some (some true)
  simp only [ed25519_verify, hpklen, hsiglen, hvalid, beq_self_eq_true,
    Bool.and_self, Bool.true_and]

/-- C2 witness: the toy keypair, the all-zero public key as sender, a
recipient and an amount: signing then validating is `some true`. -/
theorem claim_C2_witness :
    (Transaction.transfer toyFromPkcs8 5 sender0 "bob" 10 [7]).map
      (Transaction.is_valid toyCore) = some (some true) :=
  claim_C2_sign_then_validate_yields_true toyFromPkcs8 toyCore [7] toyPk
    toySign sender0 "bob" 5 10 rfl (by decide) rfl
    (fun m => by simp [toySign])
    (fun m b hb => by
      have := List.eq_of_mem_replicate hb
      subst this
      exact Nat.mod_lt _ (by norm_num))
    (fun m => by simp [toyCore])

set_option maxRecDepth 200000 in
/-- C3. The claim says any single-bit change of a signed transfer's fields
makes `is_valid` return `false`. A single bit flip in the first sender
character (`'0'`, 0x30, becomes `'p'`, 0x70) leaves the hex alphabet, and
the code then panics in `Vec::from_hex(&transfer.sender).unwrap()` instead
of returning `false`: the untampered signed transfer validates as
`some true`, the tampered one evaluates to `none` (process abort). -/
theorem claim_C3_bit_flip_in_sender_panics :
    (Transaction.transfer toyFromPkcs8 5 sender0 "bob" 10 [7]).map
      (fun tx => (Transaction.is_valid toyCore tx,
        Transaction.is_valid toyCore (tamperSender senderFlip tx))) =
      some (some true, none) := by
  rfl

/-- C4. The canonical digest depends only on `id`, `sender`, `recipient`
and `amount`: transfers agreeing on those four fields hash identically,
whatever their signature fields hold. -/
theorem claim_C4_digest_determined_by_canonical_fields
    (t t' : Transfer) (h1 : t.id = t'.id) (h2 : t.sender = t'.sender)
    (h3 : t.recipient = t'.recipient) (h4 : t.amount = t'.amount) :
    Transaction.transfer_hash t = Transaction.transfer_hash t' := by
  simp only [Transaction.transfer_hash, h1, h2, h3, h4]

/-- C4 witness: two transfers equal except for their signature fields have
equal digests. -/
theorem claim_C4_witness :
    Transaction.transfer_hash ⟨1, 2, "aa", "bb", "cc"⟩ =
      Transaction.transfer_hash ⟨1, 2, "aa", "bb", "1234"⟩ :=
  claim_C4_digest_determined_by_canonical_fields _ _ rfl rfl rfl rfl

/-- C5. A reward is valid exactly when its amount is `MINER_REWARD`, and the
reward branch of `is_valid` never consults the cryptographic verifier. -/
theorem claim_C5_reward_validity_iff_miner_reward :
    ∀ core (r : Reward),
      (Transaction.is_valid core (Transaction.Reward r) = some true ↔
        r.amount = MINER_REWARD) ∧
      ∀ core', Transaction.is_valid core (Transaction.Reward r) =
        Transaction.is_valid core' (Transaction.Reward r) := by
  intro core r
  refine ⟨?_, fun core' => rfl⟩
  simp [Transaction.is_valid]

/-- C6. The canonical digest of a transfer is the SHA-512 hash of the
serialised projection onto `{id, sender, recipient, amount}` — 64 bytes
long, and unchanged by whatever the signature field holds. -/
theorem claim_C6_digest_is_64_byte_sha512_of_canonical_subset
    (t : Transfer) :
    (Transaction.transfer_hash t).length = 64 ∧
    Transaction.transfer_hash t = sha512 (utf8Bytes
      (SignedTransfer.toJson ⟨t.id, t.sender, t.recipient, t.amount⟩)) ∧
    ∀ s, Transaction.transfer_hash { t with signature := s } =
      Transaction.transfer_hash t :=
  ⟨sha512_length _, rfl, fun s => transfer_hash_signature_irrel t s⟩

/-- C7. The claim says construction and signing errors come back as typed
results (`InvalidIdentifier`, `InvalidKey`) and never terminate the process.
The code instead panics: converting a wire transfer whose id is not a UUID
hits `.expect("Incorrect transfer UUID")`, and signing with a rejected key
container hits `.expect("Cannot create private/public key pair")` — both
abort, modelled as `none`. -/
theorem claim_C7_construction_errors_abort :
    Transfer.from_network ⟨"not-a-uuid", 5, "aa", "bb", "cc"⟩ = none ∧
    ∀ (from_pkcs8 : List Nat → Option (List Nat → List Nat))
      (id : Nat) (sender recipient : String) (amount : Nat) (key : List Nat),
      from_pkcs8 key = none →
      Transaction.transfer from_pkcs8 id sender recipient amount key =
        none := by
  refine ⟨rfl, fun fp id s r a key h => ?_⟩
  simp only [Transaction.transfer, h]

/-- C7 witness: a wire transfer with id `"not-a-uuid"` aborts the
conversion, and a key container every parser rejects aborts signing. -/
theorem claim_C7_witness :
    Transfer.from_network ⟨"not-a-uuid", 5, "aa", "bb", "cc"⟩ = none ∧
    Transaction.transfer (fun _ => none) 0 "s" "r" 1 [] = none :=
  ⟨claim_C7_construction_errors_abort.1,
    claim_C7_construction_errors_abort.2 _ 0 "s" "r" 1 [] rfl⟩

/-- The canonical byte encoding as claim C8 words it: the JSON serialisation
of the `SignedTransfer` fields in declaration order `id, sender, recipient,
amount`, with `id` rendered as its hyphenated UUID string. -/
def canonical_encoding_spec (t : Transfer) : String :=
  "\x7b\"id\":\"" ++ Uuid.to_string t.id ++ "\",\"sender\":\"" ++
    jsonEscape t.sender ++ "\",\"recipient\":\"" ++ jsonEscape t.recipient ++
    "\",\"amount\":" ++ Nat.repr t.amount ++ "\x7d"

/-- Two strings with the same character data are equal. -/
theorem str_eq_of_data (a b : String) (h : a.data = b.data) : a = b := by
  cases a
  cases b
  cases h
  rfl

/-- The rendered `SignedTransfer` JSON equals the explicit fixed-order
encoding: field order comes from the struct declaration, not map iteration,
and the id appears verbatim as its UUID string. -/
theorem toJson_eq_canonical (st : SignedTransfer) :
    st.toJson = "\x7b\"id\":\"" ++ Uuid.to_string st.id ++
      "\",\"sender\":\"" ++ jsonEscape st.sender ++ "\",\"recipient\":\"" ++
      jsonEscape st.recipient ++ "\",\"amount\":" ++ Nat.repr st.amount ++
      "\x7d" := by
  apply str_eq_of_data
  have eid : jsonEscape "id" = "id" := rfl
  have esend : jsonEscape "sender" = "sender" := rfl
  have erec : jsonEscape "recipient" = "recipient" := rfl
  have eam : jsonEscape "amount" = "amount" := rfl
  have d01 : ("\x7b" : String).data = ['\x7b'] := rfl
  have d02 : ("\"" : String).data = ['"'] := rfl
  have d03 : ("id" : String).data = ['i', 'd'] := rfl
  have d04 : ("\":" : String).data = ['"', ':'] := rfl
  have d05 : ("," : String).data = [','] := rfl
  have d06 : ("sender" : String).data = ['s', 'e', 'n', 'd', 'e', 'r'] := rfl
  have d07 : ("recipient" : String).data =
    ['r', 'e', 'c', 'i', 'p', 'i', 'e', 'n', 't'] := rfl
  have d08 : ("amount" : String).data = ['a', 'm', 'o', 'u', 'n', 't'] := rfl
  have d09 : ("\x7d" : String).data = ['\x7d'] := rfl
  have d10 : ("\x7b\"id\":\"" : String).data =
    ['\x7b', '"', 'i', 'd', '"', ':', '"'] := rfl
  have d11 : ("\",\"sender\":\"" : String).data =
    ['"', ',', '"', 's', 'e', 'n', 'd', 'e', 'r', '"', ':', '"'] := rfl
  have d12 : ("\",\"recipient\":\"" : String).data =
    ['"', ',', '"', 'r', 'e', 'c', 'i', 'p', 'i', 'e', 'n', 't', '"', ':', '"'] := rfl
  have d13 : ("\",\"amount\":" : String).data =
    ['"', ',', '"', 'a', 'm', 'o', 'u', 'n', 't', '"', ':'] := rfl
  simp only [SignedTransfer.toJson, jsonRenderObj, jsonRenderMembers,
    jsonRenderField, jsonRenderScalar, jsonEscape_uuid, eid, esend, erec, eam,
    data_append, d01, d02, d03, d04, d05, d06, d07, d08, d09, d10, d11, d12,
    d13, List.cons_append, List.nil_append, List.append_assoc]

/-- C8. The exact canonical bytes hashed by `transfer_hash` are the JSON
serialisation with fields in declaration order `id, sender, recipient,
amount`, the id rendered as a UUID string — in particular the recipient is
part of the signed digest. -/
theorem claim_C8_canonical_bytes_are_ordered_json (t : Transfer) :
    Transaction.transfer_hash t =
      sha512 (utf8Bytes (canonical_encoding_spec t)) := by
  simp only [Transaction.transfer_hash, canonical_encoding_spec]
  rw [toJson_eq_canonical]

/-- C9. A transfer whose signature is still the empty string (the state
before signing completes) and whose sender is valid hex is rejected without
a crash: the empty string hex-decodes to the empty byte vector, whose length
is not the 64 bytes an Ed25519 signature must have. -/
theorem claim_C9_empty_signature_yields_invalid
    (core : List Nat → List Nat → List Nat → Bool)
    (t : Transfer) (pk : List Nat)
    (hsig : t.signature = "") (hsender : Vec.from_hex t.sender = some pk) :
    Transaction.is_valid core (Transaction.Transfer t) = some false := by
  show Transaction.is_valid_transfer core t = some false
  rw [is_valid_transfer_eq core t pk [] hsender (by rw [hsig]; rfl)]
  simp [ed25519_verify]

/-- C9 witness: a transfer with hex sender `"00"` and empty signature is
invalid even under a verification core that accepts everything. -/
theorem claim_C9_witness :
    Transaction.is_valid (fun _ _ _ => true)
      (Transaction.Transfer ⟨0, 1, "00", "r", ""⟩) = some false :=
  claim_C9_empty_signature_yields_invalid _ ⟨0, 1, "00", "r", ""⟩ [0] rfl rfl

/-- C10. `Transaction::reward` always sets the amount to `MINER_REWARD`
(which is 1), so every reward it constructs is valid. -/
theorem claim_C10_reward_constructor_produces_valid :
    ∀ core (id : Nat) (recipient : String),
      Transaction.reward id recipient =
        Transaction.Reward ⟨id, recipient, MINER_REWARD⟩ ∧
      MINER_REWARD = 1 ∧
      Transaction.is_valid core (Transaction.reward id recipient) =
        some true :=
  fun _ _ _ => ⟨rfl, rfl, rfl⟩

end Blockchain
